import Mathlib

/-!
Verification development for the product-catalog REST service
(controllers `loggin`, `getAll`, `getById`, `save`, `eliminate`,
`actualize`, `providerProducts`, `sellProducts` and the mongoose
product schema with its four discriminated variants).

JavaScript numbers are modelled as `Int` (all arithmetic the claims
exercise is integral stock arithmetic and epoch-millisecond instants).
The mongo document store is modelled as an association list from
document ids to product records; `Model.findById` is lookup,
`doc.save()` on a fetched document is in-place replacement, and
`doc.deleteOne()` is removal.  Mongoose required-field validation of a
schema is modelled as presence of the field in the request payload;
a failed validation surfaces, as in the source, as the catch-all
500 response carrying the validation message.
-/

/-- Payload of the JWT produced by `jwt.sign` in `loggin`:
a fixed subject marker, the presented password, and an absolute
expiration instant in epoch milliseconds. -/
structure TokenPayload where
  sub : String
  password : String
  exp : Int
deriving DecidableEq

/-- Token creation inside `loggin`:
`jwt.sign({ sub: 'Token', password, exp: Date.now() + 60 * 30000 }, key)`. -/
def issueToken (password : String) (now : Int) : TokenPayload :=
  { sub := "Token", password := password, exp := now + 60 * 30000 }

/-- Result of the `validate` gate: the source returns the literal `true`
on success and a reason string otherwise; callers compare with
`valid == true` and put the reason string in the 401 body. -/
inductive GateResult where
  | ok : GateResult
  | err : String → GateResult
deriving DecidableEq

/-- Authorization gate `validate(aux)`: absent header yields the
no-session message; otherwise the bearer token (header stripped of its
scheme prefix and signature-verified, both abstracted here) is expired
when `Date.now() > payload.exp`, else valid. -/
def validate (header : Option TokenPayload) (now : Int) : GateResult :=
  match header with
  | none => GateResult.err "The session has not been logged in or the token has not been entered."
  | some payload =>
      if payload.exp < now then GateResult.err "Session Expired"
      else GateResult.ok

/-- Extra fields of the four mongoose discriminators of the base
product model (`ElectronicsProduct`, `FoodProduct`, `AutomotiveProduct`,
`ClothingProduct`); `base` is a record of the base schema alone.
The `specs` map is modelled as a string-keyed association list. -/
inductive Variant where
  | base : Variant
  | electronics : List String → Int → Variant
  | food : List String → String → List String → Int → Variant
  | automotive : List (String × String) → Int → Int → Variant
  | clothing : List String → List String → String → Variant
deriving DecidableEq

/-- A validated product document: the base schema fields plus the
discriminator payload. -/
structure ProductInstance where
  id : Int
  name : String
  description : String
  category : String
  numberCategory : Int
  price : Int
  stock : Int
  variant : Variant
deriving DecidableEq

/-- Request body (`req.body`) as seen by the controllers: every schema
field possibly absent. -/
structure Payload where
  id? : Option Int := none
  name? : Option String := none
  description? : Option String := none
  category? : Option String := none
  numberCategory? : Option Int := none
  price? : Option Int := none
  stock? : Option Int := none
  features? : Option (List String) := none
  warrantyYears? : Option Int := none
  ingredients? : Option (List String) := none
  weightOrVolume? : Option String := none
  flavors? : Option (List String) := none
  expirationDays? : Option Int := none
  specs? : Option (List (String × String)) := none
  modelYear? : Option Int := none
  sizesAvaiable? : Option (List String) := none
  colors? : Option (List String) := none
  material? : Option String := none

/-- Base-schema construction and validation shared by all branches:
`id`, `name`, `category`, `price` are required, `description` defaults
to `'Sin descripcion'` and `stock` to `50` as in `ProductSchema`. -/
def mkBase (p : Payload) (nc : Int) (v : Variant) : Except String ProductInstance :=
  match p.id?, p.name?, p.category?, p.price? with
  | some i, some nm, some c, some pr =>
      Except.ok { id := i, name := nm,
                  description := p.description?.getD "Sin descripcion",
                  category := c, numberCategory := nc, price := pr,
                  stock := p.stock?.getD 50, variant := v }
  | _, _, _, _ => Except.error "product validation failed"

/-- Variant resolution of the `save` controller: the `switch` on
`product.numberCategory` constructing `ElectronicsProduct` (code 1),
`FoodProduct` (2), `AutomotiveProduct` (3), `ClothingProduct` (4) and
falling through to the base `Product` otherwise, composed with the
mongoose validation run by `product.save()` (required discriminator
fields per `product.mjs`; optional ones with their schema defaults). -/
def resolve (p : Payload) : Except String ProductInstance :=
  match p.numberCategory? with
  | none => Except.error "product validation failed"
  | some nc =>
      if nc = 1 then
        match p.features? with
        | some fs => mkBase p nc (Variant.electronics fs (p.warrantyYears?.getD 2))
        | none => Except.error "product validation failed"
      else if nc = 2 then
        match p.ingredients?, p.weightOrVolume? with
        | some ing, some w =>
            mkBase p nc (Variant.food ing w (p.flavors?.getD ["Original"]) (p.expirationDays?.getD 30))
        | _, _ => Except.error "product validation failed"
      else if nc = 3 then
        match p.specs?, p.modelYear? with
        | some sp, some my => mkBase p nc (Variant.automotive sp (p.warrantyYears?.getD 2) my)
        | _, _ => Except.error "product validation failed"
      else if nc = 4 then
        match p.sizesAvaiable?, p.colors?, p.material? with
        | some sz, some co, some mat => mkBase p nc (Variant.clothing sz co mat)
        | _, _, _ => Except.error "product validation failed"
      else
        mkBase p nc Variant.base

/-- Variant resolution of the `actualize` controller: the same
`switch` on `productN.numberCategory`, transcribed separately from the
source so that its agreement with the create-side resolution is a
provable statement rather than a definition. -/
def resolveUpdate (p : Payload) : Except String ProductInstance :=
  match p.numberCategory? with
  | none => Except.error "product validation failed"
  | some nc =>
      if nc = 1 then
        match p.features? with
        | some fs => mkBase p nc (Variant.electronics fs (p.warrantyYears?.getD 2))
        | none => Except.error "product validation failed"
      else if nc = 2 then
        match p.ingredients?, p.weightOrVolume? with
        | some ing, some w =>
            mkBase p nc (Variant.food ing w (p.flavors?.getD ["Original"]) (p.expirationDays?.getD 30))
        | _, _ => Except.error "product validation failed"
      else if nc = 3 then
        match p.specs?, p.modelYear? with
        | some sp, some my => mkBase p nc (Variant.automotive sp (p.warrantyYears?.getD 2) my)
        | _, _ => Except.error "product validation failed"
      else if nc = 4 then
        match p.sizesAvaiable?, p.colors?, p.material? with
        | some sz, some co, some mat => mkBase p nc (Variant.clothing sz co mat)
        | _, _, _ => Except.error "product validation failed"
      else
        mkBase p nc Variant.base

/-- Presence of the base-schema required fields in a payload
(`numberCategory` included, as declared required in `ProductSchema`). -/
def baseRequiredPresent (p : Payload) : Bool :=
  p.id?.isSome && p.name?.isSome && p.category?.isSome
    && p.numberCategory?.isSome && p.price?.isSome

/-- Names of the extra fields declared `required: true` by each
discriminator schema in `product.mjs` (the clothing discriminator
spells its field `sizesAvaiable`). -/
def requiredExtraFields (nc : Int) : List String :=
  if nc = 1 then ["features"]
  else if nc = 2 then ["ingredients", "weightOrVolume"]
  else if nc = 3 then ["specs", "modelYear"]
  else if nc = 4 then ["sizesAvaiable", "colors", "material"]
  else []

/-- Modelled from the spec: the extra required fields of each variant
according to the table in §3 of the specification, kept as a separate
definition so the code's registry can be compared against it. -/
def specTableExtraRequired (nc : Int) : List String :=
  if nc = 1 then ["features"]
  else if nc = 2 then ["ingredients", "weightOrVolume"]
  else if nc = 3 then ["specs", "modelYear"]
  else if nc = 4 then ["sizesAvailable", "colors", "material"]
  else []

/-- Whether the payload carries the named discriminator field. -/
def hasField (p : Payload) (f : String) : Bool :=
  if f = "features" then p.features?.isSome
  else if f = "ingredients" then p.ingredients?.isSome
  else if f = "weightOrVolume" then p.weightOrVolume?.isSome
  else if f = "specs" then p.specs?.isSome
  else if f = "modelYear" then p.modelYear?.isSome
  else if f = "sizesAvaiable" then p.sizesAvaiable?.isSome
  else if f = "colors" then p.colors?.isSome
  else if f = "material" then p.material?.isSome
  else false

/-- The products collection: association list from mongo document ids
to product records. -/
abbrev Db : Type := List (String × ProductInstance)

/-- `Product.findById(id)`: first record stored under the id, if any. -/
def findById (db : Db) (id : String) : Option ProductInstance :=
  match db with
  | [] => none
  | (k, v) :: rest => if k = id then some v else findById rest id

/-- `doc.save()` on a document fetched by id: replace the stored record
under that id. -/
def dbSave (db : Db) (id : String) (p : ProductInstance) : Db :=
  match db with
  | [] => []
  | (k, v) :: rest => if k = id then (k, p) :: rest else (k, v) :: dbSave rest id p

/-- `doc.deleteOne()` on a document fetched by id: remove the stored
record under that id. -/
def dbRemove (db : Db) (id : String) : Db :=
  match db with
  | [] => []
  | (k, v) :: rest => if k = id then rest else (k, v) :: dbRemove rest id

/-- Value of the `data` member of a response body:
`nullData` is a present `data: null`. -/
inductive RespData where
  | nullData : RespData
  | product : ProductInstance → RespData
  | products : List ProductInstance → RespData
  | deletion : Bool → Nat → RespData
deriving DecidableEq

/-- A JSON response body together with its HTTP status; a member left
`none` is absent from the body (an `undefined` member is dropped by
`res.json`). -/
structure Response where
  status : Nat
  state : Option Bool := none
  data : Option RespData := none
  message : Option String := none
  error : Option String := none
deriving DecidableEq

/-- Controller `getAll`: returns every stored product, no gate consulted;
the header argument models `req.headers.authorization`, which this
controller never reads.  `findFailure` models the outcome of the
external `Product.find({})` call: `some err` when the repository
throws.  The catch branch reads `err.mesagge` — a typo for
`err.message` — so its value is `undefined`, `res.json` drops the
member, and the 500 body is `{ state: false }` alone. -/
def getAll (_header : Option TokenPayload) (db : Db) (findFailure : Option String) : Response :=
  match findFailure with
  | some _ => { status := 500, state := some false }
  | none =>
      { status := 200, state := some true, data := some (RespData.products (db.map Prod.snd)) }

/-- Controller `getById`: returns `{ state: true, data: result }` with
status 200 whatever `findById` produced (`data: null` on a miss);
no gate consulted. -/
def getById (_header : Option TokenPayload) (id : String) (db : Db) : Response :=
  { status := 200, state := some true,
    data := some (match findById db id with
                  | some p => RespData.product p
                  | none => RespData.nullData) }

/-- Controller `save`: gate, then variant resolution (the `switch`) and
`product.save()`; a failed mongoose validation is caught and answered
with status 500, an invalid gate with `401 { error: reason }`.  The
`newId` argument models the document id minted by the store for the new
record. -/
def save (header : Option TokenPayload) (now : Int) (body : Payload)
    (newId : String) (db : Db) : Db × Response :=
  match validate header now with
  | GateResult.ok =>
      match resolve body with
      | Except.ok inst =>
          (db ++ [(newId, inst)],
           { status := 201, state := some true, data := some (RespData.product inst) })
      | Except.error m => (db, { status := 500, state := some false, message := some m })
  | GateResult.err r => (db, { status := 401, error := some r })

/-- Controller `eliminate`: gate, lookup, `deleteOne`; 404 with message
`ID Company Not Found` when the id has no record. -/
def eliminate (header : Option TokenPayload) (now : Int) (id : String) (db : Db) :
    Db × Response :=
  match validate header now with
  | GateResult.ok =>
      match findById db id with
      | some _ =>
          (dbRemove db id,
           { status := 200, state := some true, data := some (RespData.deletion true 1) })
      | none =>
          (db, { status := 404, state := some false,
                 message := some "ID Company Not Found", data := some RespData.nullData })
  | GateResult.err r => (db, { status := 401, error := some r })

/-- Controller `actualize`: gate, lookup, variant resolution of the new
body (same `switch` as create), then `product.overwrite(productN)` and
`product.save()` — a full replacement of the stored record. -/
def actualize (header : Option TokenPayload) (now : Int) (id : String) (body : Payload)
    (db : Db) : Db × Response :=
  match validate header now with
  | GateResult.ok =>
      match findById db id with
      | some _ =>
          match resolveUpdate body with
          | Except.ok inst =>
              (dbSave db id inst,
               { status := 201, state := some true, data := some (RespData.product inst) })
          | Except.error m => (db, { status := 500, state := some false, message := some m })
      | none =>
          (db, { status := 404, state := some false,
                 message := some "ID Company Not Found", data := some RespData.nullData })
  | GateResult.err r => (db, { status := 401, error := some r })

/-- Controller `providerProducts` (restock): gate, lookup, then
`product.stock = product.stock + nStock` and save; the quantity is
taken from the body unchecked. -/
def providerProducts (header : Option TokenPayload) (now : Int) (id : String)
    (nStock : Int) (db : Db) : Db × Response :=
  match validate header now with
  | GateResult.ok =>
      match findById db id with
      | some product =>
          (dbSave db id { product with stock := product.stock + nStock },
           { status := 201, state := some true,
             data := some (RespData.product { product with stock := product.stock + nStock }) })
      | none =>
          (db, { status := 404, state := some false,
                 message := some "ID Product Not Found", data := some RespData.nullData })
  | GateResult.err r => (db, { status := 401, error := some r })

/-- Controller `sellProducts`: gate, lookup, then the floor check
`(product.stock - sStock) < 5` answering 400 with message
`Stock is less than 5` and no mutation, else
`product.stock = product.stock - sStock` and save. -/
def sellProducts (header : Option TokenPayload) (now : Int) (id : String)
    (sStock : Int) (db : Db) : Db × Response :=
  match validate header now with
  | GateResult.ok =>
      match findById db id with
      | some product =>
          if product.stock - sStock < 5 then
            (db, { status := 400, state := some false,
                   message := some "Stock is less than 5", data := some RespData.nullData })
          else
            (dbSave db id { product with stock := product.stock - sStock },
             { status := 201, state := some true,
               data := some (RespData.product { product with stock := product.stock - sStock }) })
      | none =>
          (db, { status := 404, state := some false,
                 message := some "ID Product Not Found", data := some RespData.nullData })
  | GateResult.err r => (db, { status := 401, error := some r })

/-- Shape every modelled response satisfies: the unauthorized (401)
bodies are bare `{ error }` with no success indicator; every other body
carries the boolean `state` plus a data payload or a message/error
string. -/
def shapeOk (r : Response) : Prop :=
  if r.status = 401 then r.state = none ∧ r.error.isSome = true
  else r.state.isSome = true
    ∧ (r.data.isSome = true ∨ r.message.isSome = true ∨ r.error.isSome = true)

/-- Saving a fetched document stores the new record under its id. -/
theorem findById_dbSave (db : Db) (id : String) (p q : ProductInstance)
    (h : findById db id = some q) : findById (dbSave db id p) id = some p := by
  induction db with
  | nil => simp [findById] at h
  | cons e rest ih =>
      obtain ⟨k, v⟩ := e
      by_cases hk : k = id
      · subst hk
        simp [findById, dbSave]
      · simp only [findById, dbSave, if_neg hk] at h ⊢
        exact ih h

/-- The base constructor succeeds exactly when the four required base
fields besides `numberCategory` are present. -/
theorem mkBase_ok_iff (p : Payload) (nc : Int) (v : Variant) :
    (∃ inst, mkBase p nc v = Except.ok inst)
      ↔ (p.id?.isSome = true ∧ p.name?.isSome = true
          ∧ p.category?.isSome = true ∧ p.price?.isSome = true) := by
  unfold mkBase
  rcases p.id? with _ | i <;> rcases p.name? with _ | nm <;>
    rcases p.category? with _ | c <;> rcases p.price? with _ | pr <;> simp

/-- The base constructor stores exactly the variant it was handed. -/
theorem mkBase_variant (p : Payload) (nc : Int) (v : Variant) (inst : ProductInstance)
    (h : mkBase p nc v = Except.ok inst) : inst.variant = v := by
  unfold mkBase at h
  split at h
  · cases h
    rfl
  · cases h

/-- Sample token issued at instant 0. -/
def sampleToken : TokenPayload := issueToken "secret123" 0

/-- Sample stored product with stock 5 (at the floor). -/
def sampleProduct : ProductInstance :=
  { id := 1, name := "Thing", description := "Sin descripcion", category := "Electronics",
    numberCategory := 1, price := 10, stock := 5, variant := Variant.base }

/-- Sample store holding `sampleProduct` under document id `a`. -/
def sampleDb : Db := [("a", sampleProduct)]

/-- Sample stored product with ample stock. -/
def richProduct : ProductInstance := { sampleProduct with stock := 50 }

/-- Sample store holding `richProduct` under document id `a`. -/
def richDb : Db := [("a", richProduct)]

/-- Sample well-formed electronics creation payload. -/
def electronicsPayload : Payload :=
  { id? := some 1001, name? := some "Q-Phone Pro", category? := some "Electronics",
    numberCategory? := some 1, price? := some 1300, stock? := some 10,
    features? := some ["x"] }

/-- Record resolved from `electronicsPayload`. -/
def electronicsInstance : ProductInstance :=
  { id := 1001, name := "Q-Phone Pro", description := "Sin descripcion",
    category := "Electronics", numberCategory := 1, price := 1300, stock := 10,
    variant := Variant.electronics ["x"] 2 }

/-- C2: a token issued at instant `t` (expiration `t + 60 * 30000` ms,
i.e. `t` plus 30 minutes of 60,000 ms) validates as `Valid` at every
instant up to and including `t + 30 * 60000`, and as `Expired`
(`Session Expired`) at every instant strictly after. -/
theorem C2_validate_window (pw : String) (t now : Int) :
    (now ≤ t + 30 * 60000 → validate (some (issueToken pw t)) now = GateResult.ok)
  ∧ (t + 30 * 60000 < now →
      validate (some (issueToken pw t)) now = GateResult.err "Session Expired") := by
  refine ⟨fun h => ?_, fun h => ?_⟩ <;> simp only [validate, issueToken]
  · rw [if_neg (by omega)]
  · rw [if_pos (by omega)]

/-- C2 witness: at issuance instant 0 the token is valid at exactly
30 minutes and expired one millisecond later. -/
theorem C2_validate_window_witness :
    validate (some (issueToken "pw" 0)) 1800000 = GateResult.ok
  ∧ validate (some (issueToken "pw" 0)) 1800001 = GateResult.err "Session Expired" :=
  ⟨(C2_validate_window "pw" 0 1800000).1 (by decide),
   (C2_validate_window "pw" 0 1800001).2 (by decide)⟩

/-- C3: under any non-`Valid` gate result, each of the five gated
controllers leaves the store untouched and answers
`401 { error: reason }` with the gate's reason string, while `getAll`
and `getById` ignore the authorization header entirely. -/
theorem C3_gate_required (header : Option TokenPayload) (now : Int) (r : String)
    (h : validate header now = GateResult.err r) :
    ∀ (db : Db) (id newId : String) (body : Payload) (q : Int),
      save header now body newId db = (db, { status := 401, error := some r })
    ∧ eliminate header now id db = (db, { status := 401, error := some r })
    ∧ actualize header now id body db = (db, { status := 401, error := some r })
    ∧ providerProducts header now id q db = (db, { status := 401, error := some r })
    ∧ sellProducts header now id q db = (db, { status := 401, error := some r })
    ∧ (∀ header2 findFailure, getAll header db findFailure = getAll header2 db findFailure
        ∧ getById header id db = getById header2 id db) := by
  intro db id newId body q
  refine ⟨?_, ?_, ?_, ?_, ?_, fun header2 findFailure => ⟨rfl, rfl⟩⟩ <;>
    simp [save, eliminate, actualize, providerProducts, sellProducts, h]

/-- C3 witness: with no authorization header, a sell attempt against the
sample store is rejected with the gate's no-session message and the
store is unchanged. -/
theorem C3_gate_required_witness :
    sellProducts none 0 "a" 2 sampleDb
      = (sampleDb,
         { status := 401,
           error := some "The session has not been logged in or the token has not been entered." }) :=
  ((C3_gate_required none 0 _ rfl) sampleDb "a" "n" {} 2).2.2.2.2.1

/-- C5 counterexample: on an id with no stored record, `getById` does
not fail with `NotFound`; it answers 200 with `state: true` and a null
`data` member. -/
theorem C5_counterexample :
    getById none "missing" ([] : Db)
      = { status := 200, state := some true, data := some RespData.nullData }
  ∧ (getById none "missing" ([] : Db)).status ≠ 404 := by
  refine ⟨rfl, by decide⟩

/-- C5 as amended: whenever the repository has no record for the id,
`getById` returns the 200 success response whose `data` member is null,
rather than a `NotFound` failure. -/
theorem C5_getById_null_success (header : Option TokenPayload) (id : String) (db : Db)
    (h : findById db id = none) :
    getById header id db
      = { status := 200, state := some true, data := some RespData.nullData } := by
  simp [getById, h]

/-- C5 witness: a lookup of an id absent from the sample store. -/
theorem C5_getById_null_success_witness :
    getById none "zzz" sampleDb
      = { status := 200, state := some true, data := some RespData.nullData } :=
  C5_getById_null_success none "zzz" sampleDb (by decide)

/-- C1 counterexample: selling 1 from the sample product with stock 5
takes the below-floor branch (400, store untouched), but the failure
message is `Stock is less than 5`, not the claimed
`stock is less than 5`. -/
theorem C1_counterexample :
    sellProducts (some sampleToken) 0 "a" 1 sampleDb
      = (sampleDb,
         { status := 400, state := some false,
           message := some "Stock is less than 5", data := some RespData.nullData })
  ∧ (sellProducts (some sampleToken) 0 "a" 1 sampleDb).2.message
      ≠ some "stock is less than 5" := by
  refine ⟨rfl, by decide⟩

/-- C1 as amended: for every stored product and sell quantity `q`, with
`candidate = stock - q`, when `candidate < 5` the sell fails with
status 400 and message `Stock is less than 5` (capital S) leaving the
store unchanged, and when `candidate ≥ 5` it stores exactly
`stock - q` and persists the record. -/
theorem C1_sell_floor (header : Option TokenPayload) (now : Int) (id : String)
    (q : Int) (db : Db) (product : ProductInstance)
    (hg : validate header now = GateResult.ok)
    (hf : findById db id = some product) :
    (product.stock - q < 5 →
      sellProducts header now id q db
        = (db,
           { status := 400, state := some false,
             message := some "Stock is less than 5", data := some RespData.nullData }))
  ∧ (5 ≤ product.stock - q →
      sellProducts header now id q db
        = (dbSave db id { product with stock := product.stock - q },
           { status := 201, state := some true,
             data := some (RespData.product { product with stock := product.stock - q }) })
      ∧ findById (dbSave db id { product with stock := product.stock - q }) id
          = some { product with stock := product.stock - q }) := by
  constructor
  · intro hlt
    simp [sellProducts, hg, hf, hlt]
  · intro hge
    refine ⟨?_, findById_dbSave db id _ _ hf⟩
    simp only [sellProducts, hg, hf]
    rw [if_neg (by omega)]

/-- C1 witness: an authorized sell of 3 from the rich sample store
(stock 50) succeeds, persisting stock 47. -/
theorem C1_sell_floor_witness :
    sellProducts (some sampleToken) 0 "a" 3 richDb
      = (dbSave richDb "a" { richProduct with stock := richProduct.stock - 3 },
         { status := 201, state := some true,
           data := some (RespData.product { richProduct with stock := richProduct.stock - 3 }) })
  ∧ findById (dbSave richDb "a" { richProduct with stock := richProduct.stock - 3 }) "a"
      = some { richProduct with stock := richProduct.stock - 3 } :=
  (C1_sell_floor (some sampleToken) 0 "a" 3 richDb richProduct (by decide) rfl).2 (by decide)

/-- C7: for every stored product, an authorized restock of any
caller-supplied quantity (negative included) stores exactly
`stock + quantity` and persists; on an absent id it answers
`404 ID Product Not Found` and changes nothing. -/
theorem C7_providerProducts_spec (header : Option TokenPayload) (now : Int)
    (id : String) (q : Int) (db : Db)
    (hg : validate header now = GateResult.ok) :
    (∀ product, findById db id = some product →
      providerProducts header now id q db
        = (dbSave db id { product with stock := product.stock + q },
           { status := 201, state := some true,
             data := some (RespData.product { product with stock := product.stock + q }) })
      ∧ findById (dbSave db id { product with stock := product.stock + q }) id
          = some { product with stock := product.stock + q })
  ∧ (findById db id = none →
      providerProducts header now id q db
        = (db,
           { status := 404, state := some false,
             message := some "ID Product Not Found", data := some RespData.nullData })) := by
  constructor
  · intro product hf
    refine ⟨?_, findById_dbSave db id _ _ hf⟩
    simp [providerProducts, hg, hf]
  · intro hf
    simp [providerProducts, hg, hf]

/-- C7 witness: an authorized restock by the negative quantity -3 is
accepted and persists stock 47. -/
theorem C7_providerProducts_spec_witness :
    providerProducts (some sampleToken) 0 "a" (-3) richDb
      = (dbSave richDb "a" { richProduct with stock := richProduct.stock + (-3) },
         { status := 201, state := some true,
           data := some (RespData.product { richProduct with stock := richProduct.stock + (-3) }) })
  ∧ findById (dbSave richDb "a" { richProduct with stock := richProduct.stock + (-3) }) "a"
      = some { richProduct with stock := richProduct.stock + (-3) } :=
  ((C7_providerProducts_spec (some sampleToken) 0 "a" (-3) richDb (by decide)).1
    richProduct rfl)

/-- C10: sell accepts a negative quantity: whenever `stock - q ≥ 5` and
`q < 0`, the sell succeeds (201), persists `stock - q`, and the new
stock strictly exceeds the old. -/
theorem C10_sell_negative (header : Option TokenPayload) (now : Int) (id : String)
    (q : Int) (db : Db) (product : ProductInstance)
    (hg : validate header now = GateResult.ok)
    (hf : findById db id = some product)
    (hq : q < 0) (hfloor : 5 ≤ product.stock - q) :
    (sellProducts header now id q db).2.status = 201
  ∧ findById (sellProducts header now id q db).1 id
      = some { product with stock := product.stock - q }
  ∧ product.stock < product.stock - q := by
  have hform :
      sellProducts header now id q db
        = (dbSave db id { product with stock := product.stock - q },
           { status := 201, state := some true,
             data := some (RespData.product { product with stock := product.stock - q }) }) := by
    simp only [sellProducts, hg, hf]
    rw [if_neg (by omega)]
  rw [hform]
  exact ⟨rfl, findById_dbSave db id _ _ hf, by omega⟩

/-- C10 witness: an authorized sell of -5 from stock 50 succeeds and
stores stock 55. -/
theorem C10_sell_negative_witness :
    (sellProducts (some sampleToken) 0 "a" (-5) richDb).2.status = 201
  ∧ findById (sellProducts (some sampleToken) 0 "a" (-5) richDb).1 "a"
      = some { richProduct with stock := richProduct.stock - (-5) }
  ∧ richProduct.stock < richProduct.stock - (-5) :=
  C10_sell_negative (some sampleToken) 0 "a" (-5) richDb richProduct
    (by decide) rfl (by decide) (by decide)

/-- C6: for an existing record, an authorized update stores exactly the
variant instance resolved from the payload — a full replacement, no
field of the old record survives — and persists it; on an absent id it
fails with the 404 not-found response and changes nothing. -/
theorem C6_actualize_full_replace (header : Option TokenPayload) (now : Int)
    (id : String) (body : Payload) (db : Db)
    (hg : validate header now = GateResult.ok) :
    (∀ old inst, findById db id = some old → resolveUpdate body = Except.ok inst →
      actualize header now id body db
        = (dbSave db id inst,
           { status := 201, state := some true, data := some (RespData.product inst) })
      ∧ findById (dbSave db id inst) id = some inst)
  ∧ (findById db id = none →
      actualize header now id body db
        = (db,
           { status := 404, state := some false,
             message := some "ID Company Not Found", data := some RespData.nullData })) := by
  constructor
  · intro old inst hf hr
    refine ⟨?_, findById_dbSave db id _ _ hf⟩
    simp [actualize, hg, hf, hr]
  · intro hf
    simp [actualize, hg, hf]

/-- C6 witness: updating the sample record with the electronics payload
replaces the stored base record wholesale by the resolved electronics
instance. -/
theorem C6_actualize_full_replace_witness :
    actualize (some sampleToken) 0 "a" electronicsPayload richDb
      = (dbSave richDb "a" electronicsInstance,
         { status := 201, state := some true,
           data := some (RespData.product electronicsInstance) })
  ∧ findById (dbSave richDb "a" electronicsInstance) "a" = some electronicsInstance :=
  (C6_actualize_full_replace (some sampleToken) 0 "a" electronicsPayload richDb
    (by decide)).1 richProduct electronicsInstance rfl rfl

/-- C8: an authorized restock of `q` followed by a sell of the same `q`
returns the product's stock to exactly its original value, provided the
floor is not crossed (`(stock + q) - q ≥ 5`). -/
theorem C8_restock_sell_roundtrip (header : Option TokenPayload) (now : Int)
    (id : String) (q : Int) (db : Db) (p : ProductInstance)
    (hg : validate header now = GateResult.ok)
    (hf : findById db id = some p)
    (hfloor : 5 ≤ p.stock + q - q) :
    ∃ p2, findById (sellProducts header now id q
            (providerProducts header now id q db).1).1 id = some p2
        ∧ p2.stock = p.stock := by
  have hdb1 : (providerProducts header now id q db).1
      = dbSave db id { p with stock := p.stock + q } := by
    simp [providerProducts, hg, hf]
  have hf1 : findById (dbSave db id { p with stock := p.stock + q }) id
      = some { p with stock := p.stock + q } :=
    findById_dbSave db id _ _ hf
  rw [hdb1]
  have hsell : (sellProducts header now id q (dbSave db id { p with stock := p.stock + q })).1
      = dbSave (dbSave db id { p with stock := p.stock + q }) id
          { p with stock := p.stock + q - q } := by
    simp only [sellProducts, hg, hf1]
    rw [if_neg (show ¬(p.stock + q - q < 5) from by omega)]
  rw [hsell]
  exact ⟨{ p with stock := p.stock + q - q },
    findById_dbSave _ _ _ _ hf1,
    show p.stock + q - q = p.stock from by omega⟩

/-- C8 witness: restocking 10 then selling 10 from stock 50 ends with
stock 50. -/
theorem C8_restock_sell_roundtrip_witness :
    ∃ p2, findById (sellProducts (some sampleToken) 0 "a" 10
            (providerProducts (some sampleToken) 0 "a" 10 richDb).1).1 "a" = some p2
        ∧ p2.stock = richProduct.stock :=
  C8_restock_sell_roundtrip (some sampleToken) 0 "a" 10 richDb richProduct
    (by decide) rfl (by decide)

/-- C9 counterexample: the unauthorized response of `save` (missing
header) is the bare body `{ error: reason }` with status 401 — no
boolean success indicator at all; and the storage-error response of
`getAll` (whose `message` member, read from the misspelled
`err.mesagge`, is `undefined` and dropped) is the bare body
`{ state: false }` — an indicator with neither data payload nor
message/error string. -/
theorem C9_counterexample :
    ((save none 0 {} "n1" ([] : Db)).2).state = none
  ∧ ((save none 0 {} "n1" ([] : Db)).2).status = 401
  ∧ ((save none 0 {} "n1" ([] : Db)).2).error
      = some "The session has not been logged in or the token has not been entered."
  ∧ getAll none ([] : Db) (some "storage failure") = { status := 500, state := some false }
  ∧ (getAll none ([] : Db) (some "storage failure")).state = some false
  ∧ (getAll none ([] : Db) (some "storage failure")).data = none
  ∧ (getAll none ([] : Db) (some "storage failure")).message = none
  ∧ (getAll none ([] : Db) (some "storage failure")).error = none := by
  refine ⟨rfl, rfl, rfl, rfl, rfl, rfl, rfl, rfl⟩

/-- C9 as amended: every modelled response carries the boolean `state`
indicator plus a data payload or a message/error string, with exactly
two exceptions: the unauthorized (401) responses carry only the gate's
reason under `error` with no success indicator, and the `getAll`
storage-error (500) response carries only the false indicator — its
message member is dropped because the source reads the misspelled
`err.mesagge`. -/
theorem C9_response_shape (header : Option TokenPayload) (now : Int) (db : Db)
    (id newId : String) (body : Payload) (q : Int) (findFailure : Option String) :
    (findFailure = none → shapeOk (getAll header db findFailure))
  ∧ (∀ e, findFailure = some e →
      getAll header db findFailure = { status := 500, state := some false })
  ∧ shapeOk (getById header id db)
  ∧ shapeOk (save header now body newId db).2
  ∧ shapeOk (eliminate header now id db).2
  ∧ shapeOk (actualize header now id body db).2
  ∧ shapeOk (providerProducts header now id q db).2
  ∧ shapeOk (sellProducts header now id q db).2 := by
  refine ⟨?_, ?_, ?_, ?_, ?_, ?_, ?_, ?_⟩
  · intro hnone
    simp [getAll, hnone, shapeOk]
  · intro e he
    simp [getAll, he]
  · simp [getById, shapeOk]
  · cases hv : validate header now with
    | ok =>
        cases hr : resolve body with
        | ok inst => simp [save, hv, hr, shapeOk]
        | error m => simp [save, hv, hr, shapeOk]
    | err r => simp [save, hv, shapeOk]
  · cases hv : validate header now with
    | ok =>
        cases hfind : findById db id with
        | some p => simp [eliminate, hv, hfind, shapeOk]
        | none => simp [eliminate, hv, hfind, shapeOk]
    | err r => simp [eliminate, hv, shapeOk]
  · cases hv : validate header now with
    | ok =>
        cases hfind : findById db id with
        | some p =>
            cases hr : resolveUpdate body with
            | ok inst => simp [actualize, hv, hfind, hr, shapeOk]
            | error m => simp [actualize, hv, hfind, hr, shapeOk]
        | none => simp [actualize, hv, hfind, shapeOk]
    | err r => simp [actualize, hv, shapeOk]
  · cases hv : validate header now with
    | ok =>
        cases hfind : findById db id with
        | some p => simp [providerProducts, hv, hfind, shapeOk]
        | none => simp [providerProducts, hv, hfind, shapeOk]
    | err r => simp [providerProducts, hv, shapeOk]
  · cases hv : validate header now with
    | ok =>
        cases hfind : findById db id with
        | some p =>
            by_cases hlt : p.stock - q < 5
            · simp [sellProducts, hv, hfind, hlt, shapeOk]
            · simp [sellProducts, hv, hfind, hlt, shapeOk]
        | none => simp [sellProducts, hv, hfind, shapeOk]
    | err r => simp [sellProducts, hv, shapeOk]

/-- C9 witness: on the sample store a successful listing is well
shaped, and a listing whose repository call fails produces the bare
`{ state: false }` 500 body. -/
theorem C9_response_shape_witness :
    shapeOk (getAll none sampleDb none)
  ∧ getAll none sampleDb (some "storage failure")
      = { status := 500, state := some false } :=
  ⟨(C9_response_shape none 0 sampleDb "a" "n" {} 1 none).1 rfl,
   (C9_response_shape none 0 sampleDb "a" "n" {} 1 (some "storage failure")).2.1
     "storage failure" rfl⟩

/-- Discriminator code a variant record answers to (`none` for the base
shape). -/
def variantCode : Variant → Option Int
  | Variant.base => none
  | Variant.electronics _ _ => some 1
  | Variant.food _ _ _ _ => some 2
  | Variant.automotive _ _ _ => some 3
  | Variant.clothing _ _ _ => some 4

/-- Resolution succeeds exactly when the base required fields and the
discriminator's declared required fields are all present. -/
theorem resolve_ok_iff (p : Payload) (nc : Int) (h : p.numberCategory? = some nc) :
    (∃ inst, resolve p = Except.ok inst)
      ↔ (baseRequiredPresent p = true ∧ ∀ f ∈ requiredExtraFields nc, hasField p f = true) := by
  have hb : p.numberCategory?.isSome = true := by rw [h]; rfl
  by_cases h1 : nc = 1
  · subst h1
    rcases hfs : p.features? with _ | fs
    · simp [resolve, h, hfs, requiredExtraFields, hasField]
    · have hres : resolve p = mkBase p 1 (Variant.electronics fs (p.warrantyYears?.getD 2)) := by
        simp [resolve, h, hfs]
      rw [hres, mkBase_ok_iff]
      simp [baseRequiredPresent, hb, requiredExtraFields, hasField, hfs, Bool.and_eq_true]
      tauto
  · by_cases h2 : nc = 2
    · subst h2
      rcases hing : p.ingredients? with _ | ing
      · simp [resolve, h, hing, requiredExtraFields, hasField]
      · rcases hw : p.weightOrVolume? with _ | w
        · simp [resolve, h, hing, hw, requiredExtraFields, hasField]
        · have hres : resolve p
              = mkBase p 2 (Variant.food ing w (p.flavors?.getD ["Original"])
                  (p.expirationDays?.getD 30)) := by
            simp [resolve, h, hing, hw]
          rw [hres, mkBase_ok_iff]
          simp [baseRequiredPresent, hb, requiredExtraFields, hasField, hing, hw,
            Bool.and_eq_true]
          tauto
    · by_cases h3 : nc = 3
      · subst h3
        rcases hsp : p.specs? with _ | sp
        · simp [resolve, h, hsp, requiredExtraFields, hasField]
        · rcases hmy : p.modelYear? with _ | my
          · simp [resolve, h, hsp, hmy, requiredExtraFields, hasField]
          · have hres : resolve p
                = mkBase p 3 (Variant.automotive sp (p.warrantyYears?.getD 2) my) := by
              simp [resolve, h, hsp, hmy]
            rw [hres, mkBase_ok_iff]
            simp [baseRequiredPresent, hb, requiredExtraFields, hasField, hsp, hmy,
              Bool.and_eq_true]
            tauto
      · by_cases h4 : nc = 4
        · subst h4
          rcases hsz : p.sizesAvaiable? with _ | sz
          · simp [resolve, h, hsz, requiredExtraFields, hasField]
          · rcases hco : p.colors? with _ | co
            · simp [resolve, h, hsz, hco, requiredExtraFields, hasField]
            · rcases hmat : p.material? with _ | mat
              · simp [resolve, h, hsz, hco, hmat, requiredExtraFields, hasField]
              · have hres : resolve p = mkBase p 4 (Variant.clothing sz co mat) := by
                  simp [resolve, h, hsz, hco, hmat]
                rw [hres, mkBase_ok_iff]
                simp [baseRequiredPresent, hb, requiredExtraFields, hasField, hsz, hco,
                  hmat, Bool.and_eq_true]
                tauto
        · have hres : resolve p = mkBase p nc Variant.base := by
            simp [resolve, h, h1, h2, h3, h4]
          rw [hres, mkBase_ok_iff]
          simp [baseRequiredPresent, hb, requiredExtraFields, h1, h2, h3, h4,
            Bool.and_eq_true]
          tauto

/-- A successfully resolved record carries the variant selected by the
discriminator code: the matching one for codes 1–4, the base shape for
any other code. -/
theorem resolve_variant_code (p : Payload) (nc : Int) (inst : ProductInstance)
    (h : p.numberCategory? = some nc) (hok : resolve p = Except.ok inst) :
    variantCode inst.variant
      = (if nc = 1 ∨ nc = 2 ∨ nc = 3 ∨ nc = 4 then some nc else none) := by
  by_cases h1 : nc = 1
  · subst h1
    rcases hfs : p.features? with _ | fs
    · simp [resolve, h, hfs] at hok
    · have hres : resolve p = mkBase p 1 (Variant.electronics fs (p.warrantyYears?.getD 2)) := by
        simp [resolve, h, hfs]
      rw [hres] at hok
      rw [mkBase_variant _ _ _ _ hok]
      simp [variantCode]
  · by_cases h2 : nc = 2
    · subst h2
      rcases hing : p.ingredients? with _ | ing
      · simp [resolve, h, hing] at hok
      · rcases hw : p.weightOrVolume? with _ | w
        · simp [resolve, h, hing, hw] at hok
        · have hres : resolve p
              = mkBase p 2 (Variant.food ing w (p.flavors?.getD ["Original"])
                  (p.expirationDays?.getD 30)) := by
            simp [resolve, h, hing, hw]
          rw [hres] at hok
          rw [mkBase_variant _ _ _ _ hok]
          simp [variantCode]
    · by_cases h3 : nc = 3
      · subst h3
        rcases hsp : p.specs? with _ | sp
        · simp [resolve, h, hsp] at hok
        · rcases hmy : p.modelYear? with _ | my
          · simp [resolve, h, hsp, hmy] at hok
          · have hres : resolve p
                = mkBase p 3 (Variant.automotive sp (p.warrantyYears?.getD 2) my) := by
              simp [resolve, h, hsp, hmy]
            rw [hres] at hok
            rw [mkBase_variant _ _ _ _ hok]
            simp [variantCode]
      · by_cases h4 : nc = 4
        · subst h4
          rcases hsz : p.sizesAvaiable? with _ | sz
          · simp [resolve, h, hsz] at hok
          · rcases hco : p.colors? with _ | co
            · simp [resolve, h, hsz, hco] at hok
            · rcases hmat : p.material? with _ | mat
              · simp [resolve, h, hsz, hco, hmat] at hok
              · have hres : resolve p = mkBase p 4 (Variant.clothing sz co mat) := by
                  simp [resolve, h, hsz, hco, hmat]
                rw [hres] at hok
                rw [mkBase_variant _ _ _ _ hok]
                simp [variantCode]
        · have hres : resolve p = mkBase p nc Variant.base := by
            simp [resolve, h, h1, h2, h3, h4]
          rw [hres] at hok
          rw [mkBase_variant _ _ _ _ hok]
          simp [variantCode, h1, h2, h3, h4]

/-- C4 counterexample: the extra required fields of category code 4 do
not match the table in §3 of the specification — the clothing
discriminator schema spells its sizes field `sizesAvaiable`, while the
table requires `sizesAvailable`. -/
theorem C4_counterexample :
    requiredExtraFields 4 ≠ specTableExtraRequired 4
  ∧ requiredExtraFields 4 = ["sizesAvaiable", "colors", "material"]
  ∧ specTableExtraRequired 4 = ["sizesAvailable", "colors", "material"] := by
  refine ⟨by decide, rfl, rfl⟩

/-- C4 as amended: create and update resolve identically; resolution
succeeds exactly when the base required fields and the variant's
declared required extra fields (features; ingredients and
weightOrVolume; specs and modelYear; sizesAvaiable — the schema's
spelling — colors and material) are present, so omitting one yields the
validation failure; and the resolved record carries the variant
matching the code for codes 1–4 and the base shape for every other
code. -/
theorem C4_resolve_registry (p : Payload) (nc : Int) (h : p.numberCategory? = some nc) :
    resolveUpdate p = resolve p
  ∧ ((∃ inst, resolve p = Except.ok inst)
      ↔ (baseRequiredPresent p = true ∧ ∀ f ∈ requiredExtraFields nc, hasField p f = true))
  ∧ (∀ inst, resolve p = Except.ok inst →
      variantCode inst.variant
        = (if nc = 1 ∨ nc = 2 ∨ nc = 3 ∨ nc = 4 then some nc else none)) :=
  ⟨rfl, resolve_ok_iff p nc h, fun inst hok => resolve_variant_code p nc inst h hok⟩

/-- C4 witness: the sample electronics payload (code 1, all required
fields present) resolves successfully. -/
theorem C4_resolve_registry_witness :
    ∃ inst, resolve electronicsPayload = Except.ok inst :=
  ((C4_resolve_registry electronicsPayload 1 rfl).2.1).mpr (by decide)
